import Mathlib

/-!
# EBV template application: the shared data model of `template.h`

`template.h` declares the settings, the two enumerations, the `IPC_DATA` and
`TEMPLATE` records and the prototypes of the control surface.  The header is
embedded declaration by declaration:

* an enumeration is an inductive type, its enumerators listed in declaration
  order; the value of an enumerator is its position in that list (no
  enumerator of the header has an initialiser, so C numbers them from 0);
* the preprocessor constants that the header uses but does not define
  (`NUM_COLORS`, `OSC_CAM_MAX_IMAGE_WIDTH`, `OSC_CAM_MAX_IMAGE_HEIGHT`) are the
  fields of `Config`; `#if NUM_COLORS == 1` is an `if` on that field;
* a member `uint8 name[rows][cols]` is an `ArrayDecl`; the second dimension
  is an `int` constant expression and is evaluated in 32-bit `int`
  arithmetic (`mulInt`); sizes are in bytes.

The types of `oscar.h` and `template_ipc.h` used by `IPC_DATA` are type
parameters.  The bodies of `CheckIpcRequests` and `AckIpcRequests` live in
another translation unit; the second half of the file models them from the
specification and says so at each definition.
-/

namespace EBV

/-! ## Settings -/

/-- The number of frame buffers used: `#define NR_FRAME_BUFFERS 3`. -/
def NR_FRAME_BUFFERS : Nat := 3

/-- Timeout (ms) when waiting for a new picture: `#define CAMERA_TIMEOUT 1`. -/
def CAMERA_TIMEOUT : Nat := 1

/-- The values of the integer constants the header takes from its includes. -/
structure Config where
  NUM_COLORS : Nat
  OSC_CAM_MAX_IMAGE_WIDTH : Nat
  OSC_CAM_MAX_IMAGE_HEIGHT : Nat
deriving DecidableEq, Repr

/-! ## `int` arithmetic -/

/-- The largest `int`, `2^31 - 1`. -/
def INT_MAX : Nat := 2147483647

/-- The value of an `int` expression reduced to 32 bits, two's complement: the
mathematical value when it lies in `-2^31 .. 2^31 - 1`, and the wrapped value
that the compiler folds an overflowing constant expression to otherwise. -/
def wrapInt (z : Int) : Int := (z + 2147483648) % 4294967296 - 2147483648

/-- The product `a * b` of two `int` operands. -/
def mulInt (a b : Int) : Int := wrapInt (a * b)

/-! ## Enumerations -/

/-- The different states of a pending IPC request (`enum EnIpcRequestState`). -/
inductive EnIpcRequestState where
  | REQ_STATE_IDLE
  | REQ_STATE_ACK_PENDING
  | REQ_STATE_NACK_PENDING
deriving DecidableEq, Repr

namespace EnIpcRequestState

/-- The enumerators in declaration order. -/
def enumerators : List EnIpcRequestState :=
  [REQ_STATE_IDLE, REQ_STATE_ACK_PENDING, REQ_STATE_NACK_PENDING]

/-- The integer value C gives an enumerator: its position in the declaration. -/
def toNat (s : EnIpcRequestState) : Nat := enumerators.indexOf s

end EnIpcRequestState

/-- Holds all the data needed for IPC with the user interface
(`struct IPC_DATA`); the three record types come from other headers. -/
structure IPC_DATA (ChanId Request AppState : Type) where
  ipcChan : ChanId
  req : Request
  enReqState : EnIpcRequestState
  state : AppState

/-- The list of images required for processing (`enum IMG_TYPE`), the
sentinel `MAX_NUM_IMG` included. -/
inductive IMG_TYPE where
  | SENSORIMG
  | BACKGROUND
  | THRESHOLD
  | INDEX0
  | INDEX1
  | ADDINFO
  | MAX_NUM_IMG
deriving DecidableEq, Repr

namespace IMG_TYPE

/-- The enumerators in declaration order. -/
def enumerators : List IMG_TYPE :=
  [SENSORIMG, BACKGROUND, THRESHOLD, INDEX0, INDEX1, ADDINFO, MAX_NUM_IMG]

/-- The integer value C gives an enumerator: its position in the declaration. -/
def toNat (t : IMG_TYPE) : Nat := enumerators.indexOf t

/-- The image members: every enumerator but the sentinel. -/
def images : List IMG_TYPE := enumerators.filter (fun t => decide (t ≠ MAX_NUM_IMG))

end IMG_TYPE

/-! ## The arrays of `struct TEMPLATE` -/

/-- A member `uint8 name[rows][cols]`: `rows` is the first dimension, `cols`
the value of the second dimension expression (negative when the expression
wraps below zero, a dimension the compiler rejects). -/
structure ArrayDecl where
  rows : Nat
  cols : Int
deriving DecidableEq, Repr

/-- The size of a `uint8` in bytes. -/
def sizeofUint8 : Nat := 1

/-- The size in bytes of row `i` of a two-dimensional `uint8` array, when `i`
is a valid first index. -/
def ArrayDecl.rowSize (a : ArrayDecl) (i : Nat) : Option Int :=
  if i < a.rows then some (a.cols * sizeofUint8) else none

/-- The colour-plane count: `#define NUMCOL_PLANES 2` (UYVY) under
`#if NUM_COLORS == 1`, `#define NUMCOL_PLANES 3` (RGB) under `#else`. -/
def NUMCOL_PLANES (c : Config) : Nat :=
  if c.NUM_COLORS = 1 then 2 else 3

/-- The frame buffers for the frame capture device driver: under
`#if NUM_COLORS == 1` the member is
`u8FrameBuffers[NR_FRAME_BUFFERS][NUMCOL_PLANES*OSC_CAM_MAX_IMAGE_HEIGHT*OSC_CAM_MAX_IMAGE_WIDTH]`,
under `#else` it is
`u8FrameBuffers[NR_FRAME_BUFFERS][NUM_COLORS*OSC_CAM_MAX_IMAGE_HEIGHT*OSC_CAM_MAX_IMAGE_WIDTH]`. -/
def u8FrameBuffers (c : Config) : ArrayDecl :=
  if c.NUM_COLORS = 1 then
    { rows := NR_FRAME_BUFFERS
      cols := mulInt (mulInt (NUMCOL_PLANES c) c.OSC_CAM_MAX_IMAGE_HEIGHT)
        c.OSC_CAM_MAX_IMAGE_WIDTH }
  else
    { rows := NR_FRAME_BUFFERS
      cols := mulInt (mulInt c.NUM_COLORS c.OSC_CAM_MAX_IMAGE_HEIGHT)
        c.OSC_CAM_MAX_IMAGE_WIDTH }

/-- A buffer to hold the temporary images:
`u8TempImage[MAX_NUM_IMG][NUM_COLORS*OSC_CAM_MAX_IMAGE_WIDTH*OSC_CAM_MAX_IMAGE_HEIGHT]`. -/
def u8TempImage (c : Config) : ArrayDecl :=
  { rows := IMG_TYPE.MAX_NUM_IMG.toNat
    cols := mulInt (mulInt c.NUM_COLORS c.OSC_CAM_MAX_IMAGE_WIDTH)
      c.OSC_CAM_MAX_IMAGE_HEIGHT }

/-! ## The IPC request channel

`template.h` only declares `CheckIpcRequests` and `AckIpcRequests`.  Their
behaviour is modelled from the specification (sections 3, 4.4, 6 and 7); what
the transport and the servicing step answer is an explicit input of each
operation. -/

/-- Modelled from the spec: the status codes of the error taxonomy (section 7).
`OSC_ERR`, `SUCCESS` and `ENO_MSG_AVAIL` are defined in `oscar.h`, which is not
part of the sources. -/
inductive Status where
  | Success
  | Timeout
  | NoMessageAvailable
  | ResourceExhausted
  | TransportBusy
  | InvalidRequest
  | UnrecoverableFault
deriving DecidableEq, Repr

/-- Modelled from the spec: the request record (`struct OSC_IPC_REQUEST` of
`oscar.h`, not part of the sources) with the fields section 3 lists for a
pending request: target parameter identifier, destination write location and
capacity of the response area. -/
structure Request where
  paramId : Nat
  destination : Nat
  capacity : Nat
deriving DecidableEq, Repr

/-- Modelled from the spec: what the transport presents to one non-blocking
poll (section 4.4): a queued request, nothing, or a failure of the transport. -/
inductive Poll where
  | request (r : Request)
  | nothing
  | fault
deriving DecidableEq, Repr

/-- The IPC record of the application, with the channel id a number and the
request record as modelled above. -/
abbrev Ipc (σ : Type) : Type := IPC_DATA Nat Request σ

/-- Modelled from the spec: the outcome of one call of `CheckIpcRequests`: the
status code, the value stored through `pParamId` (when the call stores one) and
the IPC record after the call. -/
structure CheckResult (σ : Type) where
  status : Status
  stored : Option Nat
  ipc : Ipc σ

/-- The caller's variable `*pParamId` after a call that found it holding `old`. -/
def CheckResult.paramAfter {σ : Type} (r : CheckResult σ) (old : Nat) : Nat :=
  r.stored.getD old

/-- Modelled from the spec: the body of `CheckIpcRequests` (declared in
`template.h`, defined elsewhere).  Section 4.4: a non-blocking poll that returns
the next request's parameter identifier, or the no-message indication when
nothing is queued; the header adds that the identifier is stored through
`pParamId` in case of success.  Receiving a request is only possible while
`Idle` (section 4.4; the channel is a single slot, section 3): with an ack or
nack pending the transport is not polled, a queued request stays deferred
(section 9), and the caller is told that no message is available, the
non-error result of section 7. -/
def CheckIpcRequests {σ : Type} (poll : Poll) (d : Ipc σ) : CheckResult σ :=
  match d.enReqState with
  | .REQ_STATE_IDLE =>
    match poll with
    | .request r => { status := .Success, stored := some r.paramId, ipc := { d with req := r } }
    | .nothing => { status := .NoMessageAvailable, stored := none, ipc := d }
    | .fault => { status := .UnrecoverableFault, stored := none, ipc := d }
  | _ => { status := .NoMessageAvailable, stored := none, ipc := d }

/-- Modelled from the spec: an acknowledgement the transport has accepted: the
request it answers, the payload of the response area and whether it is
positive. -/
structure Delivery where
  req : Request
  payload : List Nat
  positive : Bool
deriving DecidableEq, Repr

/-- Modelled from the spec: the channel as the controller and the transport see
it: the IPC record, the response area that servicing fills, and the
acknowledgements the transport has accepted so far, oldest first. -/
structure Channel (σ : Type) where
  ipc : Ipc σ
  response : List Nat
  delivered : List Delivery

/-- Set the state tag of the channel. -/
def Channel.setState {σ : Type} (w : Channel σ) (s : EnIpcRequestState) : Channel σ :=
  { w with ipc := { w.ipc with enReqState := s } }

/-- Modelled from the spec: `serviceRequest(parameterId)` of section 4.4.
`select` gives the data matching a parameter identifier (`none` for an unknown
identifier).  The data is written to the response area and the channel goes to
`AckPending`; an unknown identifier or a payload larger than the capacity
gives `NackPending` without a copy. -/
def serviceRequest {σ : Type} (select : Nat → Option (List Nat)) (parameterId : Nat)
    (w : Channel σ) : Channel σ :=
  match select parameterId with
  | some payload =>
    if payload.length ≤ w.ipc.req.capacity then
      Channel.setState { w with response := payload } .REQ_STATE_ACK_PENDING
    else
      w.setState .REQ_STATE_NACK_PENDING
  | none => w.setState .REQ_STATE_NACK_PENDING

/-- Modelled from the spec: the body of `AckIpcRequests` (declared in
`template.h`, defined elsewhere).  Section 4.4: the pending ack or nack is
handed to the transport; `accepts` is the transport's answer.  A refusal is
`TransportBusy` and changes nothing; an acceptance delivers the response and
returns the channel to `Idle`.  With nothing pending there is nothing to hand
over. -/
def AckIpcRequests {σ : Type} (accepts : Bool) (w : Channel σ) : Status × Channel σ :=
  match w.ipc.enReqState with
  | .REQ_STATE_IDLE => (.Success, w)
  | .REQ_STATE_ACK_PENDING =>
    if accepts then
      (.Success,
        Channel.setState { w with delivered := w.delivered ++ [⟨w.ipc.req, w.response, true⟩] }
          .REQ_STATE_IDLE)
    else (.TransportBusy, w)
  | .REQ_STATE_NACK_PENDING =>
    if accepts then
      (.Success,
        Channel.setState { w with delivered := w.delivered ++ [⟨w.ipc.req, w.response, false⟩] }
          .REQ_STATE_IDLE)
    else (.TransportBusy, w)

/-- Call `AckIpcRequests` once per answer of the transport, in order. -/
def ackRun {σ : Type} : List Bool → Channel σ → Channel σ
  | [], w => w
  | a :: rest, w => ackRun rest (AckIpcRequests a w).2

/-- The delivery that an accepted acknowledgement of `w` hands over. -/
def Channel.pendingDelivery {σ : Type} (w : Channel σ) : Delivery :=
  ⟨w.ipc.req, w.response, decide (w.ipc.enReqState = .REQ_STATE_ACK_PENDING)⟩

/-- The channel has an ack or a nack pending. -/
def Channel.pending {σ : Type} (w : Channel σ) : Bool :=
  decide (w.ipc.enReqState ≠ .REQ_STATE_IDLE)

/-- Modelled from the spec: the `ServiceIpc` state of the controller (section
4.5): it polls the channel and, if a request is present, services it with the
parameter identifier the poll stored. -/
def ServiceIpc {σ : Type} (poll : Poll) (select : Nat → Option (List Nat))
    (w : Channel σ) : Channel σ :=
  if (CheckIpcRequests poll w.ipc).status = .Success then
    serviceRequest select ((CheckIpcRequests poll w.ipc).paramAfter 0)
      { w with ipc := (CheckIpcRequests poll w.ipc).ipc }
  else
    { w with ipc := (CheckIpcRequests poll w.ipc).ipc }

/-- Modelled from the spec: the states of the controller loop that act on the
channel (section 4.5), each with the answer of its environment: `ServiceIpc`
with what the transport presents and the data the application holds, and
`Acknowledge` with the transport's answer. -/
inductive Op where
  | serviceIpc (poll : Poll) (select : Nat → Option (List Nat))
  | acknowledge (accepts : Bool)

/-- One step of the channel. -/
def step {σ : Type} (op : Op) (w : Channel σ) : Channel σ :=
  match op with
  | .serviceIpc poll select => ServiceIpc poll select w
  | .acknowledge accepts => (AckIpcRequests accepts w).2

/-- The step accepts a new request: its poll returns `Success`. -/
def acceptsRequest {σ : Type} (op : Op) (w : Channel σ) : Bool :=
  match op with
  | .serviceIpc poll _ => decide ((CheckIpcRequests poll w.ipc).status = .Success)
  | .acknowledge _ => false

/-- The channel at start-up: idle, nothing serviced, nothing delivered. -/
def Channel.init {σ : Type} (chan : Nat) (r : Request) (s : σ) : Channel σ :=
  { ipc := { ipcChan := chan, req := r, enReqState := .REQ_STATE_IDLE, state := s }
    response := []
    delivered := [] }

/-- The states the channel reaches from start-up. -/
inductive Reachable {σ : Type} : Channel σ → Prop where
  | init (chan : Nat) (r : Request) (s : σ) : Reachable (Channel.init chan r s)
  | step (op : Op) (w : Channel σ) : Reachable w → Reachable (step op w)

/-! ## Facts about the header -/

/-- C1: the request state tag has exactly the three values `REQ_STATE_IDLE`,
`REQ_STATE_ACK_PENDING`, `REQ_STATE_NACK_PENDING`, numbered 0, 1, 2 and pairwise
distinct; the state of every `IPC_DATA` value is one of the three and is never
both `AckPending` and `NackPending`. -/
theorem ipc_state_tag_three_values {ChanId Req AppState : Type}
    (d : IPC_DATA ChanId Req AppState) :
    EnIpcRequestState.enumerators.length = 3 ∧
    EnIpcRequestState.enumerators.Nodup ∧
    EnIpcRequestState.enumerators.map EnIpcRequestState.toNat = [0, 1, 2] ∧
    (∀ s : EnIpcRequestState, s ∈ EnIpcRequestState.enumerators) ∧
    (∀ s t : EnIpcRequestState, s.toNat = t.toNat → s = t) ∧
    (d.enReqState = .REQ_STATE_IDLE ∨ d.enReqState = .REQ_STATE_ACK_PENDING ∨
      d.enReqState = .REQ_STATE_NACK_PENDING) ∧
    ¬ (d.enReqState = .REQ_STATE_ACK_PENDING ∧ d.enReqState = .REQ_STATE_NACK_PENDING) := by
  refine ⟨rfl, by decide, by decide, ?_, ?_, ?_, ?_⟩
  · intro s; cases s <;> decide
  · intro s t; cases s <;> cases t <;> decide
  · cases d.enReqState <;> simp
  · rintro ⟨h1, h2⟩
    rw [h1] at h2
    cases h2

/-- The first dimension of `u8TempImage` is the value of `MAX_NUM_IMG`, 6. -/
theorem tempImage_rows (c : Config) : (u8TempImage c).rows = 6 := rfl

/-- An image type other than the sentinel has an index below 6. -/
theorem IMG_TYPE.toNat_lt (t : IMG_TYPE) (ht : t ≠ .MAX_NUM_IMG) : t.toNat < 6 := by
  cases t <;> first | exact absurd rfl ht | decide

/-- C2: `IMG_TYPE` has the six image members `SENSORIMG`, `BACKGROUND`,
`THRESHOLD`, `INDEX0`, `INDEX1`, `ADDINFO`, numbered 0 to 5 in that order, and
the sentinel `MAX_NUM_IMG` is 6; an image type other than the sentinel is a
valid first index of `u8TempImage`, and two image types with the same index
are the same type. -/
theorem img_type_indexes_temp_image (c : Config) (t u : IMG_TYPE)
    (ht : t ≠ .MAX_NUM_IMG) :
    IMG_TYPE.images =
      [.SENSORIMG, .BACKGROUND, .THRESHOLD, .INDEX0, .INDEX1, .ADDINFO] ∧
    IMG_TYPE.images.length = 6 ∧
    IMG_TYPE.images.map IMG_TYPE.toNat = [0, 1, 2, 3, 4, 5] ∧
    IMG_TYPE.ADDINFO.toNat = 5 ∧
    IMG_TYPE.MAX_NUM_IMG.toNat = 6 ∧
    (u8TempImage c).rows = 6 ∧
    t.toNat < (u8TempImage c).rows ∧
    ((u8TempImage c).rowSize t.toNat).isSome = true ∧
    (t.toNat = u.toNat → t = u) := by
  have hlt : t.toNat < (u8TempImage c).rows := by
    rw [tempImage_rows]
    exact t.toNat_lt ht
  refine ⟨by decide, by decide, by decide, by decide, by decide, rfl, hlt, ?_, ?_⟩
  · simp [ArrayDecl.rowSize, hlt]
  · cases t <;> cases u <;> decide

/-- The instance of C2 for the reserved slot `ADDINFO` against `INDEX1` in the
greyscale 752 x 480 configuration. -/
theorem img_type_indexes_temp_image_witness :
    IMG_TYPE.ADDINFO.toNat < (u8TempImage ⟨1, 752, 480⟩).rows ∧
    (IMG_TYPE.ADDINFO.toNat = IMG_TYPE.INDEX1.toNat → IMG_TYPE.ADDINFO = IMG_TYPE.INDEX1) :=
  have h := img_type_indexes_temp_image ⟨1, 752, 480⟩ .ADDINFO .INDEX1 (by decide)
  ⟨h.2.2.2.2.2.2.1, h.2.2.2.2.2.2.2.2⟩

/-- Removing a multiple of `2^32` does not change the reduced value. -/
theorem wrapInt_sub_mul (x j : Int) : wrapInt (x - 4294967296 * j) = wrapInt x := by
  unfold wrapInt
  omega

/-- A value in the range of `int` is its own reduction. -/
theorem wrapInt_of_fits (x : Int) (h0 : 0 ≤ x) (h1 : x ≤ 2147483647) : wrapInt x = x := by
  unfold wrapInt
  omega

/-- Reducing the left operand first does not change a reduced product. -/
theorem wrapInt_mul_wrapInt (p q : Int) : wrapInt (wrapInt p * q) = wrapInt (p * q) := by
  have h : wrapInt p = p - 4294967296 * ((p + 2147483648) / 4294967296) := by
    unfold wrapInt
    omega
  rw [h, show (p - 4294967296 * ((p + 2147483648) / 4294967296)) * q =
      p * q - 4294967296 * (((p + 2147483648) / 4294967296) * q) by ring]
  exact wrapInt_sub_mul _ _

/-- A product of three constants that fits in `int` is evaluated exactly. -/
theorem mulInt_mulInt_of_fits (a b d : Nat) (h : a * b * d ≤ INT_MAX) :
    mulInt (mulInt a b) d = ((a * b * d : Nat) : Int) := by
  unfold mulInt
  rw [wrapInt_mul_wrapInt]
  apply wrapInt_of_fits
  · positivity
  · have h2 : ((a * b * d : Nat) : Int) ≤ ((INT_MAX : Nat) : Int) := Int.ofNat_le.mpr h
    rw [Nat.cast_mul, Nat.cast_mul] at h2
    exact h2

/-- The size of a row of `u8FrameBuffers`, for a valid index, when the
dimension expression fits in `int`. -/
theorem frameBuffer_rowSize (c : Config) (i : Nat) (hi : i < NR_FRAME_BUFFERS)
    (h1 : c.NUM_COLORS = 1 →
      2 * c.OSC_CAM_MAX_IMAGE_HEIGHT * c.OSC_CAM_MAX_IMAGE_WIDTH ≤ INT_MAX)
    (h2 : c.NUM_COLORS ≠ 1 →
      c.NUM_COLORS * c.OSC_CAM_MAX_IMAGE_HEIGHT * c.OSC_CAM_MAX_IMAGE_WIDTH ≤ INT_MAX) :
    (u8FrameBuffers c).rowSize i =
      some (((if c.NUM_COLORS = 1 then
          2 * c.OSC_CAM_MAX_IMAGE_HEIGHT * c.OSC_CAM_MAX_IMAGE_WIDTH
        else c.NUM_COLORS * c.OSC_CAM_MAX_IMAGE_HEIGHT * c.OSC_CAM_MAX_IMAGE_WIDTH : Nat) :
          Int)) := by
  unfold u8FrameBuffers ArrayDecl.rowSize NUMCOL_PLANES sizeofUint8
  by_cases h : c.NUM_COLORS = 1
  · simp only [h, if_true, if_pos hi]
    rw [mulInt_mulInt_of_fits 2 _ _ (h1 h)]
    simp
  · simp only [h, if_false, if_pos hi]
    rw [mulInt_mulInt_of_fits _ _ _ (h2 h)]
    simp

/-- The size of a row of `u8TempImage`, for an image type other than the
sentinel, when the dimension expression fits in `int`. -/
theorem tempImage_rowSize (c : Config) (t : IMG_TYPE) (ht : t ≠ .MAX_NUM_IMG)
    (hfit : c.NUM_COLORS * c.OSC_CAM_MAX_IMAGE_WIDTH * c.OSC_CAM_MAX_IMAGE_HEIGHT ≤ INT_MAX) :
    (u8TempImage c).rowSize t.toNat =
      some ((c.NUM_COLORS * c.OSC_CAM_MAX_IMAGE_WIDTH * c.OSC_CAM_MAX_IMAGE_HEIGHT : Nat) :
        Int) := by
  have hlt : t.toNat < (u8TempImage c).rows := by
    rw [tempImage_rows]
    exact t.toNat_lt ht
  unfold ArrayDecl.rowSize
  rw [if_pos hlt]
  unfold u8TempImage sizeofUint8
  simp only []
  rw [mulInt_mulInt_of_fits _ _ _ hfit]
  simp

/-- C3: the header at `NUM_COLORS = 2` with the 752 x 480 resolution: the
`#else` branch is taken, `NUMCOL_PLANES` is 3, and a frame buffer has
`NUM_COLORS*480*752 = 721920` bytes, not the `NUMCOL_PLANES*480*752 = 1082880`
bytes of the claim; at `NUM_COLORS = 1` the `#if` branch does dimension the
buffer with `NUMCOL_PLANES`. -/
theorem frameBuffer_size_not_planes :
    (u8FrameBuffers ⟨2, 752, 480⟩).rowSize 0 = some 721920 ∧
    NUMCOL_PLANES ⟨2, 752, 480⟩ * 480 * 752 = 1082880 ∧
    (u8FrameBuffers ⟨2, 752, 480⟩).rowSize 0 ≠
      some ((NUMCOL_PLANES ⟨2, 752, 480⟩ * 480 * 752 : Nat) : Int) ∧
    (u8FrameBuffers ⟨1, 752, 480⟩).rowSize 0 =
      some ((NUMCOL_PLANES ⟨1, 752, 480⟩ * 480 * 752 : Nat) : Int) := by
  decide

/-- C4: `NR_FRAME_BUFFERS` is 3, `u8FrameBuffers` has `NR_FRAME_BUFFERS` rows
whether or not `NUM_COLORS == 1`, and a buffer index is valid exactly when it
is 0, 1 or 2. -/
theorem frameBuffer_pool_three (c : Config) (i : Nat) :
    NR_FRAME_BUFFERS = 3 ∧
    (u8FrameBuffers c).rows = NR_FRAME_BUFFERS ∧
    (i < (u8FrameBuffers c).rows ↔ i = 0 ∨ i = 1 ∨ i = 2) ∧
    (((u8FrameBuffers c).rowSize i).isSome = true ↔ i = 0 ∨ i = 1 ∨ i = 2) := by
  have hrows : (u8FrameBuffers c).rows = 3 := by
    unfold u8FrameBuffers
    by_cases h : c.NUM_COLORS = 1 <;> simp [h, NR_FRAME_BUFFERS]
  have hidx : i < 3 ↔ i = 0 ∨ i = 1 ∨ i = 2 := by omega
  refine ⟨rfl, hrows, by rw [hrows]; exact hidx, ?_⟩
  unfold ArrayDecl.rowSize
  rw [hrows, ← hidx]
  by_cases h : i < 3 <;> simp [h]

/-- C5 as stated fails: with `NUM_COLORS = 1` and a 65536 x 65536 resolution
the dimension `NUM_COLORS*W*H` overflows `int` and is folded to 0, so a slot
does not have `1 * 65536 * 65536` bytes. -/
theorem tempImage_slot_size_overflow :
    (u8TempImage ⟨1, 65536, 65536⟩).rowSize IMG_TYPE.SENSORIMG.toNat = some 0 ∧
    (u8TempImage ⟨1, 65536, 65536⟩).rowSize IMG_TYPE.SENSORIMG.toNat ≠
      some ((1 * 65536 * 65536 : Nat) : Int) := by
  decide

/-- C5, amended: when `NUM_COLORS * OSC_CAM_MAX_IMAGE_WIDTH *
OSC_CAM_MAX_IMAGE_HEIGHT` fits in `int`, the slot of `u8TempImage` of every
image type other than the sentinel has that many bytes, the reserved `ADDINFO`
slot included, so all six slots have one size. -/
theorem tempImage_slot_size (c : Config) (t u : IMG_TYPE)
    (ht : t ≠ .MAX_NUM_IMG) (hu : u ≠ .MAX_NUM_IMG)
    (hfit : c.NUM_COLORS * c.OSC_CAM_MAX_IMAGE_WIDTH * c.OSC_CAM_MAX_IMAGE_HEIGHT ≤ INT_MAX) :
    (u8TempImage c).rowSize t.toNat =
      some ((c.NUM_COLORS * c.OSC_CAM_MAX_IMAGE_WIDTH * c.OSC_CAM_MAX_IMAGE_HEIGHT : Nat) :
        Int) ∧
    (u8TempImage c).rowSize IMG_TYPE.ADDINFO.toNat =
      some ((c.NUM_COLORS * c.OSC_CAM_MAX_IMAGE_WIDTH * c.OSC_CAM_MAX_IMAGE_HEIGHT : Nat) :
        Int) ∧
    (u8TempImage c).rowSize t.toNat = (u8TempImage c).rowSize u.toNat := by
  refine ⟨tempImage_rowSize c t ht hfit, tempImage_rowSize c _ (by decide) hfit, ?_⟩
  rw [tempImage_rowSize c t ht hfit, tempImage_rowSize c u hu hfit]

/-- The instance of the amended C5 for the slots `THRESHOLD` and `ADDINFO` of
the colour 752 x 480 configuration. -/
theorem tempImage_slot_size_witness :
    3 * 752 * 480 ≤ INT_MAX ∧
    (u8TempImage ⟨3, 752, 480⟩).rowSize IMG_TYPE.THRESHOLD.toNat =
      some ((3 * 752 * 480 : Nat) : Int) ∧
    (u8TempImage ⟨3, 752, 480⟩).rowSize IMG_TYPE.THRESHOLD.toNat =
      (u8TempImage ⟨3, 752, 480⟩).rowSize IMG_TYPE.ADDINFO.toNat :=
  have h := tempImage_slot_size ⟨3, 752, 480⟩ .THRESHOLD .ADDINFO (by decide) (by decide)
    (by decide)
  ⟨by decide, h.1, h.2.2⟩

/-- C10 as stated fails: with `NUM_COLORS = 1` and a 65536 x 65536 resolution
both dimension expressions overflow `int` and are folded to 0, so the frame
buffer does not have `2*H*W` bytes and the slot does not have `H*W` bytes. -/
theorem frameBuffer_covers_slot_overflow :
    (u8FrameBuffers ⟨1, 65536, 65536⟩).rowSize 0 = some 0 ∧
    (u8TempImage ⟨1, 65536, 65536⟩).rowSize IMG_TYPE.SENSORIMG.toNat = some 0 ∧
    (u8FrameBuffers ⟨1, 65536, 65536⟩).rowSize 0 ≠
      some ((2 * 65536 * 65536 : Nat) : Int) ∧
    (u8TempImage ⟨1, 65536, 65536⟩).rowSize IMG_TYPE.SENSORIMG.toNat ≠
      some ((65536 * 65536 : Nat) : Int) := by
  decide

/-- C10, amended: when the dimension of the frame buffers fits in `int`
(`2*H*W` with `NUM_COLORS == 1`, `NUM_COLORS*H*W` otherwise), a raw frame
buffer is at least as large as an image slot: with `NUM_COLORS == 1` the frame
buffer has `2*H*W` bytes, twice the `H*W` bytes of a slot; otherwise both have
`NUM_COLORS*H*W` bytes. -/
theorem frameBuffer_covers_slot (c : Config) (i : Nat) (t : IMG_TYPE)
    (hi : i < NR_FRAME_BUFFERS) (ht : t ≠ .MAX_NUM_IMG)
    (h1 : c.NUM_COLORS = 1 →
      2 * c.OSC_CAM_MAX_IMAGE_HEIGHT * c.OSC_CAM_MAX_IMAGE_WIDTH ≤ INT_MAX)
    (h2 : c.NUM_COLORS ≠ 1 →
      c.NUM_COLORS * c.OSC_CAM_MAX_IMAGE_HEIGHT * c.OSC_CAM_MAX_IMAGE_WIDTH ≤ INT_MAX) :
    ∃ frame slot : Nat,
      (u8FrameBuffers c).rowSize i = some (frame : Int) ∧
      (u8TempImage c).rowSize t.toNat = some (slot : Int) ∧
      slot ≤ frame ∧
      (c.NUM_COLORS = 1 →
        frame = 2 * slot ∧
        frame = 2 * c.OSC_CAM_MAX_IMAGE_HEIGHT * c.OSC_CAM_MAX_IMAGE_WIDTH ∧
        slot = c.OSC_CAM_MAX_IMAGE_HEIGHT * c.OSC_CAM_MAX_IMAGE_WIDTH) ∧
      (c.NUM_COLORS ≠ 1 →
        frame = slot ∧
        frame = c.NUM_COLORS * c.OSC_CAM_MAX_IMAGE_HEIGHT * c.OSC_CAM_MAX_IMAGE_WIDTH) := by
  have hslot : c.NUM_COLORS * c.OSC_CAM_MAX_IMAGE_WIDTH * c.OSC_CAM_MAX_IMAGE_HEIGHT ≤
      INT_MAX := by
    by_cases h : c.NUM_COLORS = 1
    · have h3 := h1 h
      rw [h, Nat.one_mul, Nat.mul_comm c.OSC_CAM_MAX_IMAGE_WIDTH]
      rw [Nat.mul_assoc] at h3
      exact Nat.le_trans (Nat.le_mul_of_pos_left _ (by decide)) h3
    · have h3 := h2 h
      rw [Nat.mul_assoc, Nat.mul_comm c.OSC_CAM_MAX_IMAGE_WIDTH, ← Nat.mul_assoc]
      exact h3
  refine ⟨_, _, frameBuffer_rowSize c i hi h1 h2, tempImage_rowSize c t ht hslot, ?_, ?_, ?_⟩
  · by_cases h : c.NUM_COLORS = 1
    · simp only [h, if_true, Nat.one_mul]
      rw [Nat.mul_comm c.OSC_CAM_MAX_IMAGE_WIDTH, Nat.mul_assoc]
      exact Nat.le_mul_of_pos_left _ (by decide)
    · simp only [h, if_false]
      rw [Nat.mul_assoc, Nat.mul_assoc, Nat.mul_comm c.OSC_CAM_MAX_IMAGE_WIDTH]
  · intro h
    simp only [h, if_true, Nat.one_mul]
    refine ⟨?_, trivial, Nat.mul_comm _ _⟩
    rw [Nat.mul_comm c.OSC_CAM_MAX_IMAGE_WIDTH, Nat.mul_assoc]
  · intro h
    simp only [h, if_false]
    refine ⟨?_, trivial⟩
    rw [Nat.mul_assoc, Nat.mul_assoc, Nat.mul_comm c.OSC_CAM_MAX_IMAGE_WIDTH]

/-- The instance of the amended C10 for buffer 0 and the `SENSORIMG` slot of
the greyscale 752 x 480 configuration: `2*480*752` bytes against `480*752`. -/
theorem frameBuffer_covers_slot_witness :
    2 * 480 * 752 ≤ INT_MAX ∧
    ∃ frame slot : Nat,
      (u8FrameBuffers ⟨1, 752, 480⟩).rowSize 0 = some (frame : Int) ∧
      (u8TempImage ⟨1, 752, 480⟩).rowSize IMG_TYPE.SENSORIMG.toNat = some (slot : Int) ∧
      slot ≤ frame ∧ frame = 2 * slot ∧ frame = 2 * 480 * 752 ∧ slot = 480 * 752 :=
  have ⟨frame, slot, hf, hs, hle, h1, _⟩ :=
    frameBuffer_covers_slot ⟨1, 752, 480⟩ 0 .SENSORIMG (by decide) (by decide)
      (fun _ => by decide) (fun h => absurd rfl h)
  ⟨by decide, frame, slot, hf, hs, hle, h1 rfl⟩

/-! ## Facts about the modelled request channel -/

/-- A poll never changes the state tag. -/
theorem checkIpcRequests_state {σ : Type} (poll : Poll) (d : Ipc σ) :
    (CheckIpcRequests poll d).ipc.enReqState = d.enReqState := by
  obtain ⟨chan, req, st, s⟩ := d
  cases st <;> cases poll <;> rfl

/-- A poll succeeds only on an idle channel. -/
theorem checkIpcRequests_success_idle {σ : Type} (poll : Poll) (d : Ipc σ)
    (h : (CheckIpcRequests poll d).status = .Success) : d.enReqState = .REQ_STATE_IDLE := by
  obtain ⟨chan, req, st, s⟩ := d
  cases st
  · rfl
  · simp [CheckIpcRequests] at h
  · simp [CheckIpcRequests] at h

/-- A refused acknowledgement changes nothing. -/
theorem ack_refused {σ : Type} (w : Channel σ) : (AckIpcRequests false w).2 = w := by
  obtain ⟨⟨chan, req, st, s⟩, resp, del⟩ := w
  cases st <;> rfl

/-- An accepted acknowledgement of a pending channel delivers the response
once and returns the channel to idle. -/
theorem ack_accepted {σ : Type} (w : Channel σ) (hp : w.pending = true) :
    (AckIpcRequests true w).2 =
      Channel.setState { w with delivered := w.delivered ++ [w.pendingDelivery] }
        .REQ_STATE_IDLE := by
  obtain ⟨⟨chan, req, st, s⟩, resp, del⟩ := w
  cases st
  · simp [Channel.pending] at hp
  · rfl
  · rfl

/-- On an idle channel acknowledging does nothing, whatever the transport
answers. -/
theorem ackRun_idle {σ : Type} (flags : List Bool) (w : Channel σ)
    (hi : w.ipc.enReqState = .REQ_STATE_IDLE) : ackRun flags w = w := by
  induction flags with
  | nil => rfl
  | cons a rest ih =>
    have h1 : (AckIpcRequests a w).2 = w := by
      unfold AckIpcRequests
      rw [hi]
    rw [ackRun, h1, ih]

/-- While the transport refuses, the channel stays as it is. -/
theorem ackRun_refused {σ : Type} (n : Nat) (w : Channel σ) :
    ackRun (List.replicate n false) w = w := by
  induction n with
  | zero => rfl
  | succ k ih => rw [List.replicate_succ, ackRun, ack_refused, ih]

/-- Acknowledging over two lists of answers in a row. -/
theorem ackRun_append {σ : Type} (xs ys : List Bool) (w : Channel σ) :
    ackRun (xs ++ ys) w = ackRun ys (ackRun xs w) := by
  induction xs generalizing w with
  | nil => rfl
  | cons a rest ih => rw [List.cons_append, ackRun, ackRun, ih]

/-- C6: from a reachable state of the channel, a step never takes `AckPending`
to `NackPending` or `NackPending` to `AckPending`; a pending state is kept or
left to `Idle`; the only changes of state are `Idle` to a pending state and a
pending state to `Idle`; and a step accepts a new request only in `Idle`. -/
theorem channel_transitions {σ : Type} (w : Channel σ) (_hw : Reachable w) (op : Op) :
    ¬ (w.ipc.enReqState = .REQ_STATE_ACK_PENDING ∧
        (step op w).ipc.enReqState = .REQ_STATE_NACK_PENDING) ∧
    ¬ (w.ipc.enReqState = .REQ_STATE_NACK_PENDING ∧
        (step op w).ipc.enReqState = .REQ_STATE_ACK_PENDING) ∧
    (w.ipc.enReqState ≠ .REQ_STATE_IDLE →
      (step op w).ipc.enReqState = w.ipc.enReqState ∨
      (step op w).ipc.enReqState = .REQ_STATE_IDLE) ∧
    ((step op w).ipc.enReqState ≠ w.ipc.enReqState →
      (w.ipc.enReqState = .REQ_STATE_IDLE ∧
        ((step op w).ipc.enReqState = .REQ_STATE_ACK_PENDING ∨
          (step op w).ipc.enReqState = .REQ_STATE_NACK_PENDING)) ∨
      (w.ipc.enReqState ≠ .REQ_STATE_IDLE ∧
        (step op w).ipc.enReqState = .REQ_STATE_IDLE)) ∧
    (acceptsRequest op w = true → w.ipc.enReqState = .REQ_STATE_IDLE) := by
  have key : (w.ipc.enReqState = .REQ_STATE_IDLE ∨
      (step op w).ipc.enReqState = w.ipc.enReqState ∨
      (step op w).ipc.enReqState = .REQ_STATE_IDLE) ∧
      (acceptsRequest op w = true → w.ipc.enReqState = .REQ_STATE_IDLE) := by
    cases op with
    | serviceIpc poll select =>
      refine ⟨?_, ?_⟩
      · by_cases hs : (CheckIpcRequests poll w.ipc).status = .Success
        · exact Or.inl (checkIpcRequests_success_idle poll w.ipc hs)
        · right
          left
          simp only [step, ServiceIpc, if_neg hs]
          exact checkIpcRequests_state poll w.ipc
      · intro h
        exact checkIpcRequests_success_idle poll w.ipc (of_decide_eq_true h)
    | acknowledge a =>
      refine ⟨?_, by simp [acceptsRequest]⟩
      obtain ⟨⟨chan, req, st, s⟩, resp, del⟩ := w
      cases st <;> cases a <;> simp [step, AckIpcRequests, Channel.setState]
  obtain ⟨hk, hacc⟩ := key
  generalize (step op w).ipc.enReqState = t at hk ⊢
  generalize w.ipc.enReqState = u at hk hacc ⊢
  refine ⟨?_, ?_, ?_, ?_, hacc⟩
  · rintro ⟨h1, h2⟩
    subst h1 h2
    simp at hk
  · rintro ⟨h1, h2⟩
    subst h1 h2
    simp at hk
  · intro hne
    rcases hk with h | h | h
    · exact absurd h hne
    · exact Or.inl h
    · exact Or.inr h
  · intro hne
    rcases hk with h | h | h
    · subst h
      left
      refine ⟨rfl, ?_⟩
      cases t <;> simp at hne ⊢
    · exact absurd h hne
    · subst h
      right
      exact ⟨fun h => hne h.symm, rfl⟩

/-- The instance of C6 at the state reached from start-up by polling request 1
and servicing it: the channel is `AckPending`, the next poll is not accepted,
and an accepted acknowledgement takes the channel to `Idle`, not to
`NackPending`. -/
theorem channel_transitions_witness :
    Reachable
      (step (.serviceIpc (.request ⟨1, 0, 4⟩) fun _ => some []) (Channel.init 0 ⟨0, 0, 0⟩ ())) ∧
    (step (.serviceIpc (.request ⟨1, 0, 4⟩) fun _ => some [])
        (Channel.init 0 ⟨0, 0, 0⟩ ())).ipc.enReqState = .REQ_STATE_ACK_PENDING ∧
    acceptsRequest (.serviceIpc (.request ⟨2, 0, 4⟩) fun _ => none)
        (step (.serviceIpc (.request ⟨1, 0, 4⟩) fun _ => some [])
          (Channel.init 0 ⟨0, 0, 0⟩ ())) = false ∧
    (step (.acknowledge true)
        (step (.serviceIpc (.request ⟨1, 0, 4⟩) fun _ => some [])
          (Channel.init 0 ⟨0, 0, 0⟩ ()))).ipc.enReqState = .REQ_STATE_IDLE ∧
    ¬ ((step (.serviceIpc (.request ⟨1, 0, 4⟩) fun _ => some [])
          (Channel.init 0 ⟨0, 0, 0⟩ ())).ipc.enReqState = .REQ_STATE_ACK_PENDING ∧
        (step (.acknowledge true)
          (step (.serviceIpc (.request ⟨1, 0, 4⟩) fun _ => some [])
            (Channel.init 0 ⟨0, 0, 0⟩ ()))).ipc.enReqState = .REQ_STATE_NACK_PENDING) :=
  ⟨Reachable.step _ _ (Reachable.init 0 ⟨0, 0, 0⟩ ()), rfl, rfl, rfl,
    (channel_transitions
      (step (.serviceIpc (.request ⟨1, 0, 4⟩) fun _ => some []) (Channel.init 0 ⟨0, 0, 0⟩ ()))
      (Reachable.step _ _ (Reachable.init 0 ⟨0, 0, 0⟩ ())) (.acknowledge true)).1⟩

/-- C7: with an ack or nack pending, a call of `AckIpcRequests` that the
transport refuses returns `TransportBusy` and leaves the channel (request,
request state, application state, response, deliveries) unchanged, so any
number of refused calls leaves it unchanged; the first accepted call returns
`Success`, puts the channel in `Idle` and delivers the pending response, and
whatever calls follow, that response has been delivered exactly once. -/
theorem ack_retry_delivers_once {σ : Type} (w : Channel σ) (hp : w.pending = true)
    (n : Nat) (rest : List Bool) :
    AckIpcRequests false w = (.TransportBusy, w) ∧
    ackRun (List.replicate n false) w = w ∧
    (AckIpcRequests true (ackRun (List.replicate n false) w)).1 = .Success ∧
    (ackRun (List.replicate n false ++ [true]) w).ipc.enReqState = .REQ_STATE_IDLE ∧
    ackRun (List.replicate n false ++ true :: rest) w =
      ackRun (List.replicate n false ++ [true]) w ∧
    (ackRun (List.replicate n false ++ true :: rest) w).delivered =
      w.delivered ++ [w.pendingDelivery] ∧
    (ackRun (List.replicate n false ++ true :: rest) w).ipc.req = w.ipc.req ∧
    (ackRun (List.replicate n false ++ true :: rest) w).ipc.state = w.ipc.state ∧
    (ackRun (List.replicate n false ++ true :: rest) w).response = w.response := by
  have hone : ∀ tail : List Bool, ackRun (List.replicate n false ++ true :: tail) w =
      Channel.setState { w with delivered := w.delivered ++ [w.pendingDelivery] }
        .REQ_STATE_IDLE := by
    intro tail
    rw [ackRun_append, ackRun_refused, ackRun, ack_accepted w hp]
    exact ackRun_idle tail _ rfl
  refine ⟨?_, ackRun_refused n w, ?_, ?_, ?_, ?_, ?_, ?_, ?_⟩
  · obtain ⟨⟨chan, req, st, s⟩, resp, del⟩ := w
    cases st
    · simp [Channel.pending] at hp
    · rfl
    · rfl
  · rw [ackRun_refused]
    obtain ⟨⟨chan, req, st, s⟩, resp, del⟩ := w
    cases st
    · simp [Channel.pending] at hp
    · rfl
    · rfl
  · rw [hone []]
    rfl
  · rw [hone rest, hone []]
  · rw [hone rest]
    rfl
  · rw [hone rest]
    rfl
  · rw [hone rest]
    rfl
  · rw [hone rest]
    rfl

/-- The instance of C7 for a channel with a nack pending for request 7: two
refused calls, an accepted one and two further calls deliver the one negative
acknowledgement. -/
theorem ack_retry_delivers_once_witness :
    (ackRun [false, false, true, true, false]
        ({ ipc := { ipcChan := 0, req := ⟨7, 0, 16⟩,
                    enReqState := .REQ_STATE_NACK_PENDING, state := () }
           response := [], delivered := [] } : Channel Unit)).delivered =
      [⟨⟨7, 0, 16⟩, [], false⟩] :=
  (ack_retry_delivers_once
    ({ ipc := { ipcChan := 0, req := ⟨7, 0, 16⟩,
                enReqState := .REQ_STATE_NACK_PENDING, state := () }
       response := [], delivered := [] } : Channel Unit) rfl 2 [true, false]).2.2.2.2.2.1

/-- C8: `CheckIpcRequests` returns `Success`, the no-message code or another
code; a value is stored through `pParamId` exactly when it returns `Success`,
which is exactly when the channel is idle and the transport has a request, and
the value is that request's parameter identifier; the no-message code differs
from `Success`, is the result whenever nothing is queued or the channel cannot
receive, and leaves `*pParamId` as it was. -/
theorem checkIpcRequests_outcome {σ : Type} (poll : Poll) (d : Ipc σ) (old : Nat) :
    ((CheckIpcRequests poll d).status = .Success ∨
      (CheckIpcRequests poll d).status = .NoMessageAvailable ∨
      (CheckIpcRequests poll d).status = .UnrecoverableFault) ∧
    ((CheckIpcRequests poll d).stored.isSome = true ↔
      (CheckIpcRequests poll d).status = .Success) ∧
    ((CheckIpcRequests poll d).status = .Success ↔
      d.enReqState = .REQ_STATE_IDLE ∧ ∃ q, poll = .request q) ∧
    (∀ q, d.enReqState = .REQ_STATE_IDLE → poll = .request q →
      (CheckIpcRequests poll d).status = .Success ∧
      (CheckIpcRequests poll d).stored = some q.paramId ∧
      (CheckIpcRequests poll d).paramAfter old = q.paramId ∧
      (CheckIpcRequests poll d).ipc.req = q) ∧
    Status.NoMessageAvailable ≠ Status.Success ∧
    (poll = .nothing → (CheckIpcRequests poll d).status = .NoMessageAvailable) ∧
    (d.enReqState ≠ .REQ_STATE_IDLE →
      (CheckIpcRequests poll d).status = .NoMessageAvailable) ∧
    ((CheckIpcRequests poll d).status = .NoMessageAvailable →
      (CheckIpcRequests poll d).paramAfter old = old ∧
      (CheckIpcRequests poll d).ipc = d) ∧
    ((CheckIpcRequests poll d).status ≠ .Success →
      (CheckIpcRequests poll d).paramAfter old = old ∧
      (CheckIpcRequests poll d).ipc = d) := by
  obtain ⟨chan, req, st, s⟩ := d
  cases st <;> cases poll <;>
    simp [CheckIpcRequests, CheckResult.paramAfter]

/-- Instances of C8: an idle channel offered request 42 stores 42 over the old
value 5; offered nothing it returns the no-message code and keeps 5; and a
channel with an ack pending returns the no-message code and keeps 5 even when
request 42 is queued. -/
theorem checkIpcRequests_outcome_witness :
    (CheckIpcRequests (.request ⟨42, 0, 8⟩)
        ({ ipcChan := 0, req := ⟨0, 0, 0⟩, enReqState := .REQ_STATE_IDLE, state := () } :
          Ipc Unit)).paramAfter 5 = 42 ∧
    (CheckIpcRequests .nothing
        ({ ipcChan := 0, req := ⟨0, 0, 0⟩, enReqState := .REQ_STATE_IDLE, state := () } :
          Ipc Unit)).paramAfter 5 = 5 ∧
    (CheckIpcRequests (.request ⟨42, 0, 8⟩)
        ({ ipcChan := 0, req := ⟨0, 0, 0⟩, enReqState := .REQ_STATE_ACK_PENDING,
           state := () } : Ipc Unit)).status = .NoMessageAvailable ∧
    (CheckIpcRequests (.request ⟨42, 0, 8⟩)
        ({ ipcChan := 0, req := ⟨0, 0, 0⟩, enReqState := .REQ_STATE_ACK_PENDING,
           state := () } : Ipc Unit)).paramAfter 5 = 5 :=
  have hreq := checkIpcRequests_outcome (.request ⟨42, 0, 8⟩)
    ({ ipcChan := 0, req := ⟨0, 0, 0⟩, enReqState := .REQ_STATE_IDLE, state := () } :
      Ipc Unit) 5
  have hnone := checkIpcRequests_outcome .nothing
    ({ ipcChan := 0, req := ⟨0, 0, 0⟩, enReqState := .REQ_STATE_IDLE, state := () } :
      Ipc Unit) 5
  have hpend := checkIpcRequests_outcome (.request ⟨42, 0, 8⟩)
    ({ ipcChan := 0, req := ⟨0, 0, 0⟩, enReqState := .REQ_STATE_ACK_PENDING, state := () } :
      Ipc Unit) 5
  ⟨(hreq.2.2.2.1 ⟨42, 0, 8⟩ rfl rfl).2.2.1,
   (hnone.2.2.2.2.2.2.2.1 (hnone.2.2.2.2.2.1 rfl)).1,
   hpend.2.2.2.2.2.2.1 (by decide),
   (hpend.2.2.2.2.2.2.2.1 (hpend.2.2.2.2.2.2.1 (by decide))).1⟩

end EBV
